import Mathlib

/-!
Shallow embedding of `src/mechanisms/single/mod_func.c`.

The C file declares two process-wide globals (`nrnmpi_myid`, `nrn_nobanner_`,
both C `int`s) and nineteen external registration entry points, and defines a
single procedure `modl_reg` that optionally prints a banner to `stderr` and
then calls the nineteen registration functions in a fixed order.

We embed the procedure as a state-passing function.  The state `St` carries
the two globals and an event log; `fprintf` to `stderr` and a call to an
external registration function each append one event to the log.  The body of
`modl_reg` below is a statement-by-statement transcription of the C body.
-/

namespace ModFunc

/-- The nineteen external registration entry points declared in the file,
one constructor per `extern void _*_reg();` declaration. -/
inductive RegFn where
  | _Im_reg
  | _bk_reg
  | _cadyn_reg
  | _cal12_reg
  | _cal13_reg
  | _caldyn_reg
  | _can_reg
  | _car_reg
  | _cav32_reg
  | _cav33_reg
  | _gaba_reg
  | _glutamate_reg
  | _kaf_reg
  | _kas_reg
  | _kdr_reg
  | _kir_reg
  | _naf_reg
  | _sk_reg
  | _vecevent_reg
  deriving DecidableEq, Repr

/-- Observable events of one execution: a write of a string to `stderr`, or a
call to one of the external registration functions. -/
inductive Event where
  | write (s : String)
  | reg (f : RegFn)
  deriving DecidableEq, Repr

/-- Process state visible to `modl_reg`: the two globals it reads, plus the
log of observable events (stderr writes and registration calls). -/
structure St where
  nrnmpi_myid : Int
  nrn_nobanner_ : Int
  events : List Event
  deriving DecidableEq, Repr

/-- `fprintf(stderr, s)`: appends a write event to the log. -/
def fprintf_stderr (s : String) (st : St) : St :=
  { st with events := st.events ++ [Event.write s] }

/-- Calling an external registration function: appends a call event. -/
def call (f : RegFn) (st : St) : St :=
  { st with events := st.events ++ [Event.reg f] }

/-- The body of `void modl_reg()`, transcribed statement by statement.
`!nrn_nobanner_` in C is `nrn_nobanner_ = 0`. -/
def modl_reg (st0 : St) : St :=
  let st1 :=
    if st0.nrn_nobanner_ = 0 then
      if st0.nrnmpi_myid < 1 then
        st0
        |> fprintf_stderr "Additional mechanisms from files\n"
        |> fprintf_stderr " Im.mod"
        |> fprintf_stderr " bk.mod"
        |> fprintf_stderr " cadyn.mod"
        |> fprintf_stderr " cal12.mod"
        |> fprintf_stderr " cal13.mod"
        |> fprintf_stderr " caldyn.mod"
        |> fprintf_stderr " can.mod"
        |> fprintf_stderr " car.mod"
        |> fprintf_stderr " cav32.mod"
        |> fprintf_stderr " cav33.mod"
        |> fprintf_stderr " gaba.mod"
        |> fprintf_stderr " glutamate.mod"
        |> fprintf_stderr " kaf.mod"
        |> fprintf_stderr " kas.mod"
        |> fprintf_stderr " kdr.mod"
        |> fprintf_stderr " kir.mod"
        |> fprintf_stderr " naf.mod"
        |> fprintf_stderr " sk.mod"
        |> fprintf_stderr " vecevent.mod"
        |> fprintf_stderr "\n"
      else st0
    else st0
  st1
  |> call RegFn._Im_reg
  |> call RegFn._bk_reg
  |> call RegFn._cadyn_reg
  |> call RegFn._cal12_reg
  |> call RegFn._cal13_reg
  |> call RegFn._caldyn_reg
  |> call RegFn._can_reg
  |> call RegFn._car_reg
  |> call RegFn._cav32_reg
  |> call RegFn._cav33_reg
  |> call RegFn._gaba_reg
  |> call RegFn._glutamate_reg
  |> call RegFn._kaf_reg
  |> call RegFn._kas_reg
  |> call RegFn._kdr_reg
  |> call RegFn._kir_reg
  |> call RegFn._naf_reg
  |> call RegFn._sk_reg
  |> call RegFn._vecevent_reg

/-- One invocation of `modl_reg` starting from an empty event log, with the
globals set by the host runtime: the events it produces. -/
def modl_reg_run (nobanner myid : Int) : List Event :=
  (modl_reg ⟨myid, nobanner, []⟩).events

/-- The nineteen registration functions in the order the body calls them. -/
def regFnOrder : List RegFn :=
  [RegFn._Im_reg, RegFn._bk_reg, RegFn._cadyn_reg, RegFn._cal12_reg,
   RegFn._cal13_reg, RegFn._caldyn_reg, RegFn._can_reg, RegFn._car_reg,
   RegFn._cav32_reg, RegFn._cav33_reg, RegFn._gaba_reg, RegFn._glutamate_reg,
   RegFn._kaf_reg, RegFn._kas_reg, RegFn._kdr_reg, RegFn._kir_reg,
   RegFn._naf_reg, RegFn._sk_reg, RegFn._vecevent_reg]

/-- The registration-call events, in call order. -/
def regEvents : List Event := regFnOrder.map Event.reg

/-- The nineteen mechanism file names in listed order. -/
def mechFiles : List String :=
  ["Im.mod", "bk.mod", "cadyn.mod", "cal12.mod", "cal13.mod", "caldyn.mod",
   "can.mod", "car.mod", "cav32.mod", "cav33.mod", "gaba.mod", "glutamate.mod",
   "kaf.mod", "kas.mod", "kdr.mod", "kir.mod", "naf.mod", "sk.mod",
   "vecevent.mod"]

/-- The strings the banner branch writes to `stderr`, in write order. -/
def bannerStrings : List String :=
  "Additional mechanisms from files\n" :: mechFiles.map (fun n => " " ++ n) ++ ["\n"]

/-- The banner branch as events. -/
def bannerEvents : List Event := bannerStrings.map Event.write

/-- Extract the registration function of a call event. -/
def regOf : Event → Option RegFn
  | Event.reg f => some f
  | Event.write _ => none

/-- Extract the string of a write event. -/
def writeOf : Event → Option String
  | Event.write s => some s
  | Event.reg _ => none

/-- Is the event a write to `stderr`? -/
def isWrite : Event → Bool
  | Event.write _ => true
  | Event.reg _ => false

/-- Is the event a registration call? -/
def isReg : Event → Bool
  | Event.reg _ => true
  | Event.write _ => false

/-- Characterisation of one execution of `modl_reg`: it appends to the log the
banner events (when the two-global guard holds) followed by the nineteen
registration events, and touches nothing else. -/
theorem modl_reg_events (st : St) :
    (modl_reg st).events =
      st.events ++
        (if st.nrn_nobanner_ = 0 ∧ st.nrnmpi_myid < 1 then bannerEvents else []) ++
        regEvents := by
  unfold modl_reg
  split_ifs with h1 h2 <;>
    simp_all [fprintf_stderr, call, bannerEvents, bannerStrings, mechFiles,
      regEvents, regFnOrder]

/-- Each registration function occurs exactly once in `regEvents`. -/
theorem count_regEvents (r : RegFn) : regEvents.count (Event.reg r) = 1 := by
  cases r <;> rfl

/-- No registration event occurs among the banner events. -/
theorem count_bannerEvents (r : RegFn) : bannerEvents.count (Event.reg r) = 0 := by
  cases r <;> rfl

/-- Characterisation of one invocation from an empty log. -/
theorem modl_reg_run_eq (nobanner myid : Int) :
    modl_reg_run nobanner myid =
      (if nobanner = 0 ∧ myid < 1 then bannerEvents else []) ++ regEvents := by
  rw [modl_reg_run, modl_reg_events]
  rfl

/-- C1: every invocation of `modl_reg` calls each of the 19 registration
functions exactly once, in the fixed listed order, whatever the values of
`nrn_nobanner_` and `nrnmpi_myid`. -/
theorem modl_reg_calls_each_once (nobanner myid : Int) :
    (modl_reg_run nobanner myid).filterMap regOf = regFnOrder ∧
      ∀ r : RegFn, (modl_reg_run nobanner myid).count (Event.reg r) = 1 := by
  rw [modl_reg_run_eq]
  refine ⟨?_, ?_⟩
  · split_ifs <;> decide
  · intro r
    split_ifs <;> cases r <;> decide

/-- C2: the sequence of `stderr` writes of an invocation is the full banner
exactly when `nrn_nobanner_` is zero and `nrnmpi_myid < 1`, and is empty
under any other combination of the two globals. -/
theorem modl_reg_banner_iff (nobanner myid : Int) :
    (modl_reg_run nobanner myid).filterMap writeOf =
      if nobanner = 0 ∧ myid < 1 then bannerStrings else [] := by
  rw [modl_reg_run_eq]
  split_ifs <;> decide

/-- C3: whenever the banner is printed, its text is the header line followed
by exactly the 19 mechanism file names in listed order, each prefixed by one
space, terminated by one newline. -/
theorem modl_reg_banner_text (nobanner myid : Int)
    (h : nobanner = 0 ∧ myid < 1) :
    String.join ((modl_reg_run nobanner myid).filterMap writeOf) =
      "Additional mechanisms from files\n" ++
        String.join (mechFiles.map (fun n => " " ++ n)) ++ "\n" := by
  rw [modl_reg_run_eq, if_pos h]
  rfl

/-- C3 witness: the hypothesis holds and the banner text is as stated at
`nrn_nobanner_ = 0`, `nrnmpi_myid = 0`. -/
theorem modl_reg_banner_text_witness :
    ((0 : Int) = 0 ∧ (0 : Int) < 1) ∧
      String.join ((modl_reg_run 0 0).filterMap writeOf) =
        "Additional mechanisms from files\n" ++
          String.join (mechFiles.map (fun n => " " ++ n)) ++ "\n" :=
  ⟨⟨rfl, by norm_num⟩, modl_reg_banner_text 0 0 ⟨rfl, by norm_num⟩⟩

/-- C4: when the banner condition holds, the event trace is all the banner
writes followed by all the registration calls, so every write to the
diagnostic stream happens before the first registration call. -/
theorem modl_reg_banner_before_regs (nobanner myid : Int)
    (h : nobanner = 0 ∧ myid < 1) :
    modl_reg_run nobanner myid = bannerEvents ++ regEvents ∧
      bannerEvents.all isWrite = true ∧ regEvents.all isReg = true := by
  refine ⟨?_, by decide, by decide⟩
  rw [modl_reg_run_eq, if_pos h]

/-- C4 witness: the hypothesis holds and the split is as stated at
`nrn_nobanner_ = 0`, `nrnmpi_myid = 0`. -/
theorem modl_reg_banner_before_regs_witness :
    ((0 : Int) = 0 ∧ (0 : Int) < 1) ∧
      (modl_reg_run 0 0 = bannerEvents ++ regEvents ∧
        bannerEvents.all isWrite = true ∧ regEvents.all isReg = true) :=
  ⟨⟨rfl, by norm_num⟩, modl_reg_banner_before_regs 0 0 ⟨rfl, by norm_num⟩⟩

/-- C5: `modl_reg` is not idempotent: iterating it `N` times from any state
adds exactly `N` occurrences of each registration call to the event log. -/
theorem modl_reg_not_idempotent (N : Nat) (st : St) (r : RegFn) :
    ((modl_reg)^[N] st).events.count (Event.reg r) =
      st.events.count (Event.reg r) + N := by
  induction N with
  | zero => simp
  | succ n ih =>
    rw [Function.iterate_succ_apply', modl_reg_events, List.count_append,
      List.count_append, ih, count_regEvents]
    have hb : ∀ c : Prop, ∀ i : Decidable c,
        ((if c then bannerEvents else []).count (Event.reg r)) = 0 := by
      intro c i
      split_ifs
      · exact count_bannerEvents r
      · rfl
    rw [hb]
    omega

/-- C6: `modl_reg` treats the two globals as read-only: their values after
the call equal their values before it, from any state. -/
theorem modl_reg_globals_readonly (st : St) :
    (modl_reg st).nrn_nobanner_ = st.nrn_nobanner_ ∧
      (modl_reg st).nrnmpi_myid = st.nrnmpi_myid := by
  unfold modl_reg
  split_ifs <;> simp [fprintf_stderr, call]

/-- C7: `modl_reg` defines no error behaviour: it is a total function on
states (no failure value in its codomain), and on every execution it appends
the complete fixed registration sequence unconditionally — no branch inspects
or reacts to any outcome of a registration call. -/
theorem modl_reg_no_error_paths (st : St) :
    (modl_reg st).events.filterMap regOf =
      st.events.filterMap regOf ++ regFnOrder := by
  have hb : bannerEvents.filterMap regOf = [] := by decide
  have hr : regEvents.filterMap regOf = regFnOrder := by decide
  rw [modl_reg_events, List.filterMap_append, List.filterMap_append, hr]
  split_ifs
  · rw [hb]
    simp
  · simp

/-- C8: whenever the banner is printed, the first write is the header line
followed by a newline, and the whole banner output holds exactly two
newlines, hence two lines. -/
theorem modl_reg_banner_two_lines (nobanner myid : Int)
    (h : nobanner = 0 ∧ myid < 1) :
    ((modl_reg_run nobanner myid).filterMap writeOf).head? =
        some "Additional mechanisms from files\n" ∧
      (String.join ((modl_reg_run nobanner myid).filterMap writeOf)).data.count
          '\n' = 2 := by
  rw [modl_reg_run_eq, if_pos h]
  exact ⟨rfl, by decide⟩

/-- C8 witness: the hypothesis holds and both parts hold at
`nrn_nobanner_ = 0`, `nrnmpi_myid = 0`. -/
theorem modl_reg_banner_two_lines_witness :
    ((0 : Int) = 0 ∧ (0 : Int) < 1) ∧
      (((modl_reg_run 0 0).filterMap writeOf).head? =
          some "Additional mechanisms from files\n" ∧
        (String.join ((modl_reg_run 0 0).filterMap writeOf)).data.count
            '\n' = 2) :=
  ⟨⟨rfl, by norm_num⟩, modl_reg_banner_two_lines 0 0 ⟨rfl, by norm_num⟩⟩

/-- C9: `modl_reg` is deterministic in the two globals: two invocations that
observe equal `nrn_nobanner_` and `nrnmpi_myid` append identical event
traces (same diagnostic output, same registration sequence), whatever else
the states hold. -/
theorem modl_reg_deterministic (st st' : St)
    (h1 : st.nrn_nobanner_ = st'.nrn_nobanner_)
    (h2 : st.nrnmpi_myid = st'.nrnmpi_myid) :
    (modl_reg st).events.drop st.events.length =
      (modl_reg st').events.drop st'.events.length := by
  rw [modl_reg_events, modl_reg_events, List.append_assoc, List.append_assoc,
    List.drop_left, List.drop_left, h1, h2]

/-- C9 witness: two concrete states with equal globals but different prior
logs append the same trace. -/
theorem modl_reg_deterministic_witness :
    (modl_reg ⟨0, 0, []⟩).events.drop
        (⟨0, 0, ([] : List Event)⟩ : St).events.length =
      (modl_reg ⟨0, 0, [Event.reg RegFn._Im_reg]⟩).events.drop
        (⟨0, 0, [Event.reg RegFn._Im_reg]⟩ : St).events.length :=
  modl_reg_deterministic _ _ rfl rfl

/-- C10: the banner gate is `nrnmpi_myid < 1`, not `= 0`: with
`nrn_nobanner_` zero, every negative rank also prints the full banner and
produces exactly the trace of rank 0. -/
theorem modl_reg_negative_rank (myid : Int) (h : myid < 0) :
    (modl_reg_run 0 myid).filterMap writeOf = bannerStrings ∧
      modl_reg_run 0 myid = modl_reg_run 0 0 := by
  have h1 : myid < 1 := lt_trans h (by norm_num)
  rw [modl_reg_run_eq, modl_reg_run_eq, if_pos ⟨rfl, h1⟩,
    if_pos ⟨rfl, by norm_num⟩]
  exact ⟨by decide, rfl⟩

/-- C10 witness: rank `-1` satisfies the hypothesis, prints the banner, and
behaves like rank 0. -/
theorem modl_reg_negative_rank_witness :
    ((-1 : Int) < 0) ∧
      ((modl_reg_run 0 (-1)).filterMap writeOf = bannerStrings ∧
        modl_reg_run 0 (-1) = modl_reg_run 0 0) :=
  ⟨by norm_num, modl_reg_negative_rank (-1) (by norm_num)⟩

end ModFunc
